import Mathlib

/-!
Verification of the whatsapp-api-frontend gateway (src/app.py) against its
specification.  Python strings are embedded as lists of characters; each
Flask handler becomes a pure function over an explicit request/state value,
with the outcome of the outbound HTTP call passed in as a parameter.
-/

/-- Python strings are modelled as lists of characters. -/
abbrev PyStr := List Char

/-- Conversion from a Lean string literal to the embedded string type. -/
def str (s : String) : PyStr := s.data

/-! ## Phone normalizer (src/app.py, format_phone_number, lines 139-155) -/

/-- Embeds the test `phone.startswith('0')`. -/
def startsWith0 (p : PyStr) : Bool := p.take 1 == ['0']

/-- Embeds the test `phone.startswith('62')`. -/
def startsWith62 (p : PyStr) : Bool := p.take 2 == ['6', '2']

/-- Embeds `re.sub(r'\D', '', phone)`: keep only decimal digits. -/
def stripNonDigits (phone : PyStr) : PyStr := phone.filter Char.isDigit

/-- Embeds the country-code branch of format_phone_number: a leading `0` is
replaced by `62`; a string not already starting with `62` gets `62`
prepended. -/
def add62 (p : PyStr) : PyStr :=
  if startsWith0 p then '6' :: '2' :: p.drop 1
  else if startsWith62 p then p
  else '6' :: '2' :: p

/-- Embeds format_phone_number (src/app.py lines 139-155).  `none` stands for
the `ValueError("Invalid phone number format")` raised when the digit count
is outside 10..15. -/
def format_phone_number (phone : PyStr) : Option PyStr :=
  let p := add62 (stripNonDigits phone)
  if p.length < 10 ∨ p.length > 15 then none else some p

/-- Written from the spec wording of section 4.1, independently of the code:
strip every non-digit character; if the result starts with "0", replace that
leading digit with "62"; else if it does not already start with "62",
prepend "62"; fail exactly when the resulting digit count is outside
[10, 15]. -/
def normalizeSpec (raw : PyStr) : Option PyStr :=
  let ds := raw.filter Char.isDigit
  let canon : PyStr :=
    if ds.take 1 = ['0'] then str "62" ++ ds.drop 1
    else if ds.take 2 = str "62" then ds
    else str "62" ++ ds
  if 10 ≤ canon.length ∧ canon.length ≤ 15 then some canon else none

/-! ## Media policy table (src/app.py, SUPPORTED_FORMATS and
FILE_SIZE_LIMITS, lines 49-64) -/

/-- The five media classes served by the upload endpoints, named by their
keys in the policy tables. -/
inductive MediaClass where
  | images
  | documents
  | audio
  | video
  | stickers
  deriving DecidableEq

/-- Embeds the SUPPORTED_FORMATS table. -/
def SUPPORTED_FORMATS : MediaClass → List PyStr
  | .images => [str "jpg", str "jpeg", str "png", str "gif", str "webp"]
  | .documents => [str "pdf", str "doc", str "docx", str "xls", str "xlsx",
      str "ppt", str "pptx", str "txt", str "zip", str "rar", str "7z"]
  | .audio => [str "mp3", str "wav", str "ogg", str "m4a", str "aac", str "flac"]
  | .video => [str "mp4", str "avi", str "mov", str "mkv", str "webm",
      str "3gp", str "flv"]
  | .stickers => [str "webp"]

/-- Embeds the FILE_SIZE_LIMITS table (bytes). -/
def FILE_SIZE_LIMITS : MediaClass → Nat
  | .images => 16 * 1024 * 1024
  | .documents => 32 * 1024 * 1024
  | .audio => 16 * 1024 * 1024
  | .video => 64 * 1024 * 1024
  | .stickers => 1 * 1024 * 1024

/-! ## File validator (src/app.py, validate_file, lines 157-182).
validate_file first sanitizes the reported filename with
werkzeug.utils.secure_filename, which is modelled here for ASCII input. -/

/-- The character class kept by the secure_filename regex [A-Za-z0-9_.-]. -/
def keepFilenameChar (c : Char) : Bool :=
  c.isAlphanum || c = '_' || c = '.' || c = '-'

/-- Models Python str.split() with no separator, as used by
secure_filename: the maximal whitespace-free runs of the input.  The
second argument accumulates the current run in reverse. -/
def pyWords : PyStr → PyStr → List PyStr
  | [], acc => if acc.isEmpty then [] else [acc.reverse]
  | c :: rest, acc =>
    if c.isWhitespace then
      (if acc.isEmpty then [] else [acc.reverse]) ++ pyWords rest []
    else pyWords rest (c :: acc)

/-- Models Python str.strip("._"): remove leading and trailing dots and
underscores. -/
def stripDotsUnderscores (s : PyStr) : PyStr :=
  ((s.dropWhile fun c => c = '.' || c = '_').reverse.dropWhile
      fun c => c = '.' || c = '_').reverse

/-- Models werkzeug.utils.secure_filename on ASCII input: non-ASCII
characters are dropped (the library applies NFKD normalization followed by
an ascii-ignore encode), the path separator becomes a space, whitespace
runs are joined with underscores, characters outside [A-Za-z0-9_.-] are
removed, and leading or trailing dots and underscores are stripped.  The
Windows device-name guard of the library is skipped, as the service runs
on a POSIX os.name. -/
def secure_filename (s : PyStr) : PyStr :=
  let ascii := s.filter fun c => c.toNat < 128
  let spaced := ascii.map fun c => if c = '/' then ' ' else c
  let joined := List.intercalate ['_'] (pyWords spaced [])
  stripDotsUnderscores (joined.filter keepFilenameChar)

/-- Embeds `filename.rsplit('.', 1)[1].lower()`: the segment after the
last dot, lowercased. -/
def extensionOf (filename : PyStr) : PyStr :=
  ((filename.reverse.takeWhile fun c => c ≠ '.').reverse).map Char.toLower

/-- The distinct ValueError outcomes of validate_file, carrying the data
interpolated into each message: the allowed-extension list for the
unsupported-type message, and the media class with its megabyte ceiling
(`FILE_SIZE_LIMITS[media_type] / (1024 * 1024)`) for the too-large
message. -/
inductive ValidationError where
  | noFile
  | missingExtension
  | unsupportedMediaType (allowed : List PyStr)
  | fileTooLarge (mediaType : MediaClass) (sizeMB : ℚ)
  deriving DecidableEq

/-- An uploaded file as seen by validate_file: the reported filename and
the stream length in bytes.  An absent upload (`request.files.get`
returning None, or a storage object with a falsy filename) is embedded as
`none` / an empty filename at the call site. -/
structure RawUpload where
  filename : PyStr
  size : Nat
  deriving DecidableEq

/-- The pair returned by a successful validate_file call: the sanitized
filename and the measured size. -/
structure StagedMeta where
  filename : PyStr
  size : Nat
  deriving DecidableEq

/-- Embeds validate_file (src/app.py lines 157-182). -/
def validate_file (file : Option RawUpload) (media_type : MediaClass) :
    Except ValidationError StagedMeta :=
  match file with
  | none => .error .noFile
  | some f =>
    if f.filename.isEmpty then .error .noFile
    else
      let filename := secure_filename f.filename
      if (filename.contains '.') = false then .error .missingExtension
      else
        let extension := extensionOf filename
        if ((SUPPORTED_FORMATS media_type).contains extension) = false then
          .error (.unsupportedMediaType (SUPPORTED_FORMATS media_type))
        else if FILE_SIZE_LIMITS media_type < f.size then
          .error (.fileTooLarge media_type
            ((FILE_SIZE_LIMITS media_type : ℚ) / (1024 * 1024)))
        else .ok ⟨filename, f.size⟩

/-- Two-decimal rounding, from the spec wording of section 4.2. -/
def roundTwoDec (q : ℚ) : ℚ := (round (q * 100) : ℤ) / 100

deriving instance DecidableEq for Except

/-! ## Status cache (src/app.py, LOCAL_BOT_STATUS lines 43-47 and
check_whatsapp_api_status lines 66-91) -/

/-- The LOCAL_BOT_STATUS dictionary, with fields in source order.
last_check is an abstract timestamp; `none` embeds its initial None. -/
structure BotStatus where
  connected : Bool
  last_check : Option Nat
  api_available : Bool
  deriving DecidableEq

/-- The observable outcome of the status probe `requests.get(...)`: a
completed HTTP response (its status code and the bot_connected field of
its JSON body, defaulting to false), or a raised exception. -/
inductive ProbeOutcome where
  | response (status_code : Nat) (bot_connected : Bool)
  | raised
  deriving DecidableEq

/-- Embeds check_whatsapp_api_status (lines 66-91) as a state transformer:
given the probe outcome, the current time and the status dictionary before
the call, it yields the dictionary afterwards paired with the returned
boolean. -/
def check_whatsapp_api_status (outcome : ProbeOutcome) (now : Nat)
    (st : BotStatus) : BotStatus × Bool :=
  match outcome with
  | .response code bc =>
    if code = 200 then
      ({ connected := bc, api_available := true, last_check := some now }, true)
    else
      ({ st with connected := false, api_available := false }, false)
  | .raised =>
    ({ connected := false, api_available := false, last_check := some now }, false)

/-! ## Remote proxy client and send endpoints (src/app.py,
send_to_whatsapp_api lines 93-137, send_message lines 1177-1210, and the
five media handlers lines 1212-1405) -/

/-- The configured backend address (WHATSAPP_API_BASE_URL, lines 34-38)
and the per-call timeout in seconds. -/
structure ApiConfig where
  base_url : PyStr
  timeout : Nat
  deriving DecidableEq

/-- The observable outcome of the forwarded `requests.post` call: a
completed upstream response (status code and JSON body), a timeout, or a
failure to establish the connection. -/
inductive UpstreamOutcome where
  | response (status_code : Nat) (body : PyStr)
  | timeout
  | connErr
  deriving DecidableEq

/-- An upstream response as the handlers consume it: `body` is the JSON
document returned by `response.json()`. -/
structure UpstreamResponse where
  status_code : Nat
  body : PyStr
  deriving DecidableEq

/-- The message of the exception raised on a timeout (line 133). -/
def timeoutMessage (cfg : ApiConfig) : PyStr :=
  str "WhatsApp API timeout after " ++ (Nat.repr cfg.timeout).data
    ++ str " seconds"

/-- The message of the exception raised on a connection error (line 135). -/
def connectMessage (cfg : ApiConfig) : PyStr :=
  str "Cannot connect to WhatsApp API at " ++ cfg.base_url

/-- Embeds send_to_whatsapp_api (lines 93-137): a completed call returns
the response unchanged; a timeout or connection error raises an exception
carrying the corresponding message. -/
def send_to_whatsapp_api (cfg : ApiConfig) (outcome : UpstreamOutcome) :
    Except PyStr UpstreamResponse :=
  match outcome with
  | .response code body => .ok ⟨code, body⟩
  | .timeout => .error (timeoutMessage cfg)
  | .connErr => .error (connectMessage cfg)

/-- A response body produced by a handler: a jsonify error payload with
the given message, a validation-error payload whose message is the text of
the caught ValueError, or the upstream JSON body relayed by
`return response.json(), response.status_code`. -/
inductive HttpBody where
  | errorMessage (msg : PyStr)
  | validationError (e : ValidationError)
  | upstream (body : PyStr)
  deriving DecidableEq

/-- A handler result: response body paired with the HTTP status code. -/
abbrev HttpResult := HttpBody × Nat

/-- The JSON body of a send-message request as read by `data.get`; keys
other than phone and message are never consulted locally. -/
structure TextRequest where
  phone : Option PyStr
  message : Option PyStr
  deriving DecidableEq

/-- The multipart form of a media request: `request.form.get('phone')`,
`request.form.get('caption', '')` and `request.files.get('file')`. -/
structure MediaRequest where
  phone : Option PyStr
  caption : PyStr
  file : Option RawUpload
  deriving DecidableEq

/-- Python truthiness of an optional string: None and the empty string are
falsy. -/
def isFalsy : Option PyStr → Bool
  | none => true
  | some s => s.isEmpty

/-- The payload a handler hands to send_to_whatsapp_api when it reaches
the forwarding call: the raw JSON dict for text, or the form fields plus
the staged file name for media.  A handler that never issues the call
yields `none` in place of this value. -/
inductive SentData where
  | textPayload (data : TextRequest)
  | mediaPayload (phone : PyStr) (caption : Option PyStr) (filename : PyStr)
  deriving DecidableEq

/-- Embeds the send_message handler (lines 1177-1210).  The second
component records the payload passed to send_to_whatsapp_api, or `none`
when the handler answers before forwarding. -/
def send_message (cfg : ApiConfig) (api_available : Bool)
    (data : Option TextRequest) (upstream : UpstreamOutcome) :
    HttpResult × Option SentData :=
  if api_available = false then
    ((.errorMessage (str "WhatsApp API not available at " ++ cfg.base_url),
      503), none)
  else
    match data with
    | none => ((.errorMessage (str "Invalid JSON data"), 400), none)
    | some d =>
      if isFalsy d.phone then
        ((.errorMessage (str "Phone number required"), 400), none)
      else if isFalsy d.message then
        ((.errorMessage (str "Message text required"), 400), none)
      else
        match send_to_whatsapp_api cfg upstream with
        | .ok resp =>
          ((.upstream resp.body, resp.status_code), some (.textPayload d))
        | .error e =>
          ((.errorMessage (str "Failed to send message: " ++ e), 500),
            some (.textPayload d))

/-- The noun interpolated into the Failed-to-send message of each media
handler. -/
def mediaLabel : MediaClass → PyStr
  | .images => str "image"
  | .documents => str "document"
  | .audio => str "audio"
  | .video => str "video"
  | .stickers => str "sticker"

/-- Embeds the five media handlers send_image, send_document, send_audio,
send_video and send_sticker (lines 1212-1405), which differ only in their
media class, their message noun, and the caption field; send_audio and
send_sticker read no caption, which this shared shape embeds as an empty
caption. -/
def send_media (cfg : ApiConfig) (api_available : Bool)
    (media_type : MediaClass) (req : MediaRequest)
    (upstream : UpstreamOutcome) : HttpResult × Option SentData :=
  if api_available = false then
    ((.errorMessage (str "WhatsApp API not available at " ++ cfg.base_url),
      503), none)
  else if isFalsy req.phone then
    ((.errorMessage (str "Phone number required"), 400), none)
  else
    match validate_file req.file media_type with
    | .error e => ((.validationError e, 400), none)
    | .ok staged =>
      let payload : SentData := .mediaPayload (req.phone.getD [])
        (if req.caption.isEmpty then none else some req.caption)
        staged.filename
      match send_to_whatsapp_api cfg upstream with
      | .ok resp => ((.upstream resp.body, resp.status_code), some payload)
      | .error e =>
        ((.errorMessage (str "Failed to send " ++ mediaLabel media_type
            ++ str ": " ++ e), 500), some payload)


/-- The two range guards agree. -/
theorem range_guard_eq (L : Nat) (c : PyStr) :
    (if L < 10 ∨ L > 15 then (none : Option PyStr) else some c)
      = (if 10 ≤ L ∧ L ≤ 15 then some c else none) := by
  by_cases h : 10 ≤ L ∧ L ≤ 15
  · rw [if_pos h, if_neg (by omega)]
  · rw [if_pos (by omega), if_neg h]

/-- The country-code branch of the code agrees with the spec wording. -/
theorem add62_eq_spec (ds : PyStr) :
    add62 ds = (if ds.take 1 = ['0'] then str "62" ++ ds.drop 1
      else if ds.take 2 = str "62" then ds
      else str "62" ++ ds) := by
  have hs : str "62" = ['6', '2'] := rfl
  unfold add62 startsWith0 startsWith62
  by_cases h1 : ds.take 1 = ['0'] <;> by_cases h2 : ds.take 2 = ['6', '2'] <;>
    simp [h1, h2, hs, List.drop_one]

/-- The country-code branch always outputs a string headed by `62`. -/
theorem add62_shape (p : PyStr) : ∃ t, add62 p = '6' :: '2' :: t := by
  unfold add62 startsWith0 startsWith62
  by_cases h1 : p.take 1 = ['0']
  · exact ⟨p.drop 1, by simp [h1]⟩
  · by_cases h2 : p.take 2 = ['6', '2']
    · refine ⟨p.drop 2, ?_⟩
      rw [if_neg (by simp [h1]), if_pos (by simp [h2])]
      conv_lhs => rw [← List.take_append_drop 2 p, h2]
      rfl
    · exact ⟨p, by simp [h1, h2]⟩

/-- Every character of the country-code branch output is a digit or comes
from the input. -/
theorem mem_add62 (p : PyStr) (c : Char) (hc : c ∈ add62 p) :
    c = '6' ∨ c = '2' ∨ c ∈ p := by
  unfold add62 at hc
  split at hc
  · simp only [List.mem_cons] at hc
    rcases hc with h6 | h2 | hc
    · exact Or.inl h6
    · exact Or.inr (Or.inl h2)
    · exact Or.inr (Or.inr (List.drop_subset _ _ hc))
  · split at hc
    · exact Or.inr (Or.inr hc)
    · simp only [List.mem_cons] at hc
      rcases hc with h6 | h2 | hc
      · exact Or.inl h6
      · exact Or.inr (Or.inl h2)
      · exact Or.inr (Or.inr hc)

/-- C8: every successful result of format_phone_number begins with "62",
and format_phone_number is idempotent on its own output. -/
theorem C8_normalize_begins_62_and_idempotent (raw p : PyStr)
    (h : format_phone_number raw = some p) :
    startsWith62 p = true ∧ format_phone_number p = some p := by
  obtain ⟨t, ht⟩ := add62_shape (stripNonDigits raw)
  simp only [format_phone_number] at h
  by_cases hlen : (add62 (stripNonDigits raw)).length < 10 ∨
      (add62 (stripNonDigits raw)).length > 15
  · rw [if_pos hlen] at h
    exact absurd h (by simp)
  · rw [if_neg hlen] at h
    have hp : add62 (stripNonDigits raw) = p := Option.some.inj h
    have hpform : p = '6' :: '2' :: t := by rw [← hp, ht]
    have hdig : ∀ c ∈ p, c.isDigit := by
      intro c hc
      rw [← hp] at hc
      rcases mem_add62 _ _ hc with h6 | h2 | hmem
      · subst h6; decide
      · subst h2; decide
      · exact List.of_mem_filter hmem
    have hfix : stripNonDigits p = p := by
      unfold stripNonDigits
      exact List.filter_eq_self.mpr hdig
    have h0 : startsWith0 p = false := by rw [hpform]; rfl
    have h62 : startsWith62 p = true := by rw [hpform]; rfl
    have hadd : add62 p = p := by
      unfold add62
      rw [h0, h62]
      simp
    have hlen' : ¬(p.length < 10 ∨ p.length > 15) := hp ▸ hlen
    refine ⟨h62, ?_⟩
    simp only [format_phone_number]
    rw [hfix, hadd, if_neg hlen']

/-- Witness for C8 at a concrete input. -/
theorem C8_witness :
    startsWith62 (str "628123456789") = true ∧
      format_phone_number (str "628123456789") = some (str "628123456789") :=
  C8_normalize_begins_62_and_idempotent (str "08123456789") (str "628123456789")
    (by decide)

/-- C1: format_phone_number strips every non-digit character, replaces a
leading "0" with "62", else prepends "62" when the digit string does not
already start with "62", and fails with the invalid-format error exactly
when the digit count of this result is outside [10, 15]; otherwise it
returns that result.  Stated as pointwise agreement with normalizeSpec,
which transcribes the specification text. -/
theorem C1_format_phone_number_matches_spec (raw : PyStr) :
    format_phone_number raw = normalizeSpec raw := by
  simp only [format_phone_number, normalizeSpec, stripNonDigits]
  rw [add62_eq_spec]
  exact range_guard_eq _ _

/-- Two-decimal rounding fixes every integer-valued rational. -/
theorem roundTwoDec_of_int (n : ℤ) : roundTwoDec ((n : ℚ)) = (n : ℚ) := by
  unfold roundTwoDec
  rw [show ((n : ℚ) * 100) = ((n * 100 : ℤ) : ℚ) by push_cast; ring]
  rw [round_intCast]
  push_cast
  ring

/-- Every class ceiling is a whole number of megabytes, so its megabyte
figure is untouched by two-decimal rounding. -/
theorem roundTwoDec_fix_mb (m : MediaClass) :
    roundTwoDec ((FILE_SIZE_LIMITS m : ℚ) / (1024 * 1024))
      = (FILE_SIZE_LIMITS m : ℚ) / (1024 * 1024) := by
  cases m
  · rw [show ((FILE_SIZE_LIMITS MediaClass.images : ℚ) / (1024 * 1024))
        = (((16 : ℤ) : ℚ)) by norm_num [FILE_SIZE_LIMITS]]
    exact roundTwoDec_of_int 16
  · rw [show ((FILE_SIZE_LIMITS MediaClass.documents : ℚ) / (1024 * 1024))
        = (((32 : ℤ) : ℚ)) by norm_num [FILE_SIZE_LIMITS]]
    exact roundTwoDec_of_int 32
  · rw [show ((FILE_SIZE_LIMITS MediaClass.audio : ℚ) / (1024 * 1024))
        = (((16 : ℤ) : ℚ)) by norm_num [FILE_SIZE_LIMITS]]
    exact roundTwoDec_of_int 16
  · rw [show ((FILE_SIZE_LIMITS MediaClass.video : ℚ) / (1024 * 1024))
        = (((64 : ℤ) : ℚ)) by norm_num [FILE_SIZE_LIMITS]]
    exact roundTwoDec_of_int 64
  · rw [show ((FILE_SIZE_LIMITS MediaClass.stickers : ℚ) / (1024 * 1024))
        = (((1 : ℤ) : ℚ)) by norm_num [FILE_SIZE_LIMITS]]
    exact roundTwoDec_of_int 1

/-- C3: for every MediaClass, a file with a usable name and an allowed
extension is accepted at byte size exactly the class ceiling, and rejected
one byte over with the file-too-large error; the megabyte figure carried
by that error is the ceiling divided by 1048576 and is fixed by
two-decimal rounding. -/
theorem C3_size_ceiling_boundary (m : MediaClass) (f : RawUpload)
    (hne : f.filename.isEmpty = false)
    (hdot : (secure_filename f.filename).contains '.' = true)
    (hext : (SUPPORTED_FORMATS m).contains
      (extensionOf (secure_filename f.filename)) = true) :
    (f.size = FILE_SIZE_LIMITS m →
      validate_file (some f) m = .ok ⟨secure_filename f.filename, f.size⟩) ∧
    (f.size = FILE_SIZE_LIMITS m + 1 →
      validate_file (some f) m = .error (.fileTooLarge m
        ((FILE_SIZE_LIMITS m : ℚ) / (1024 * 1024))) ∧
      roundTwoDec ((FILE_SIZE_LIMITS m : ℚ) / (1024 * 1024))
        = (FILE_SIZE_LIMITS m : ℚ) / (1024 * 1024)) := by
  constructor
  · intro hsz
    simp only [validate_file]
    rw [if_neg (by rw [hne]; decide), if_neg (by rw [hdot]; decide),
      if_neg (by rw [hext]; decide), if_neg (by omega)]
  · intro hsz
    refine ⟨?_, roundTwoDec_fix_mb m⟩
    simp only [validate_file]
    rw [if_neg (by rw [hne]; decide), if_neg (by rw [hdot]; decide),
      if_neg (by rw [hext]; decide), if_pos (by omega)]

/-- Witness for C3: a sticker upload at exactly 1 MiB is accepted; at
1 MiB plus one byte it is rejected with the 1 MB ceiling. -/
theorem C3_witness :
    validate_file (some ⟨str "icon.webp", 1048576⟩) MediaClass.stickers
        = .ok ⟨secure_filename (str "icon.webp"), 1048576⟩ ∧
      (validate_file (some ⟨str "icon.webp", 1048577⟩) MediaClass.stickers
        = .error (.fileTooLarge MediaClass.stickers
            ((FILE_SIZE_LIMITS MediaClass.stickers : ℚ) / (1024 * 1024))) ∧
       roundTwoDec ((FILE_SIZE_LIMITS MediaClass.stickers : ℚ) / (1024 * 1024))
        = (FILE_SIZE_LIMITS MediaClass.stickers : ℚ) / (1024 * 1024)) :=
  ⟨(C3_size_ceiling_boundary MediaClass.stickers ⟨str "icon.webp", 1048576⟩
      (by decide) (by decide) (by decide)).1 (by decide),
   (C3_size_ceiling_boundary MediaClass.stickers ⟨str "icon.webp", 1048577⟩
      (by decide) (by decide) (by decide)).2 (by decide)⟩

/-- C4: validate_file applies its checks in the fixed order no-file,
missing-extension, unsupported-media-type, file-too-large, each a distinct
failure; in particular a file whose lowercased extension (computed from
the sanitized filename) lies outside the allowed set of the class is
rejected with the unsupported-type error enumerating that set, whatever
the size field holds. -/
theorem C4_validate_file_check_order (m : MediaClass) (f : RawUpload) :
    validate_file none m = .error .noFile ∧
    (f.filename.isEmpty = true → validate_file (some f) m = .error .noFile) ∧
    (f.filename.isEmpty = false →
      (secure_filename f.filename).contains '.' = false →
      validate_file (some f) m = .error .missingExtension) ∧
    (f.filename.isEmpty = false →
      (secure_filename f.filename).contains '.' = true →
      (SUPPORTED_FORMATS m).contains
          (extensionOf (secure_filename f.filename)) = false →
      validate_file (some f) m
        = .error (.unsupportedMediaType (SUPPORTED_FORMATS m))) := by
  refine ⟨rfl, ?_, ?_, ?_⟩
  · intro hne
    simp only [validate_file]
    rw [if_pos hne]
  · intro hne hdot
    simp only [validate_file]
    rw [if_neg (by rw [hne]; decide), if_pos hdot]
  · intro hne hdot hext
    simp only [validate_file]
    rw [if_neg (by rw [hne]; decide), if_neg (by rw [hdot]; decide),
      if_pos hext]

/-- Witness for C4: the four failure modes at concrete inputs, including a
bmp image upload rejected by extension even at size zero. -/
theorem C4_witness :
    validate_file none MediaClass.images = .error .noFile ∧
      validate_file (some ⟨[], 10⟩) MediaClass.images = .error .noFile ∧
      validate_file (some ⟨str "noext", 10⟩) MediaClass.images
        = .error .missingExtension ∧
      validate_file (some ⟨str "photo.bmp", 0⟩) MediaClass.images
        = .error (.unsupportedMediaType (SUPPORTED_FORMATS MediaClass.images)) :=
  ⟨(C4_validate_file_check_order MediaClass.images ⟨[], 10⟩).1,
   (C4_validate_file_check_order MediaClass.images ⟨[], 10⟩).2.1 (by decide),
   (C4_validate_file_check_order MediaClass.images ⟨str "noext", 10⟩).2.2.1
     (by decide) (by decide),
   (C4_validate_file_check_order MediaClass.images ⟨str "photo.bmp", 0⟩).2.2.2
     (by decide) (by decide) (by decide)⟩

/-- C2: with the cached backend status marking the upstream unavailable,
every send endpoint (send-message and the five media handlers) answers
503 with a message naming the configured backend URL; the result is the
same for every upstream outcome and the forwarded-payload component is
none, so no call to the upstream backend is made. -/
theorem C2_unavailable_backend_503 (cfg : ApiConfig)
    (data : Option TextRequest) (req : MediaRequest) (m : MediaClass)
    (u : UpstreamOutcome) :
    send_message cfg false data u
        = ((.errorMessage (str "WhatsApp API not available at "
            ++ cfg.base_url), 503), none) ∧
      send_media cfg false m req u
        = ((.errorMessage (str "WhatsApp API not available at "
            ++ cfg.base_url), 503), none) :=
  ⟨rfl, rfl⟩

/-- Counterexample to C5: a refresh completing with a non-200 status marks
the backend unavailable but leaves last_check at its previous value, not
at the refresh time. -/
theorem C5_counterexample :
    (check_whatsapp_api_status (.response 500 true) 7
        ⟨true, some 5, true⟩).1 = ⟨false, some 5, false⟩ ∧
      (some 5 : Option Nat) ≠ some 7 := by
  constructor <;> decide

/-- C5 amended: every failing refresh sets connected and api_available
false and returns false; a refresh failing by exception stamps last_check
with the refresh time, while one failing with a non-200 response leaves
last_check unchanged. -/
theorem C5_amended_failed_refresh (now : Nat) (st : BotStatus) (code : Nat)
    (bc : Bool) (hne : code ≠ 200) :
    check_whatsapp_api_status .raised now st
        = (⟨false, some now, false⟩, false) ∧
      check_whatsapp_api_status (.response code bc) now st
        = (⟨false, st.last_check, false⟩, false) := by
  refine ⟨rfl, ?_⟩
  simp only [check_whatsapp_api_status]
  rw [if_neg hne]

/-- Witness for C5 at a concrete failing refresh. -/
theorem C5_witness :
    check_whatsapp_api_status .raised 7 ⟨true, some 5, true⟩
        = (⟨false, some 7, false⟩, false) ∧
      check_whatsapp_api_status (.response 500 true) 7 ⟨true, some 5, true⟩
        = (⟨false, some 5, false⟩, false) :=
  C5_amended_failed_refresh 7 ⟨true, some 5, true⟩ 500 true (by decide)

/-- Counterexample to C6: with the backend flagged available and a valid
request, a timeout of the forwarded call makes send-message answer
HTTP 500 — not 503. -/
theorem C6_counterexample :
    (send_message ⟨str "http://IP-API:5000", 30⟩ true
        (some ⟨some (str "08123456789"), some (str "hi")⟩) .timeout).1.2
      = 500 ∧ (500 : Nat) ≠ 503 := by
  constructor <;> decide

/-- C6 amended: a timeout or connection failure of the forwarded call is
caught by the generic exception handler and mapped to HTTP 500; the reply
embeds the underlying error text, which names the configured backend
address in the connection-failure case but only the configured timeout
seconds in the timeout case. -/
theorem C6_amended_upstream_failure_500 (cfg : ApiConfig) (d : TextRequest)
    (hp : isFalsy d.phone = false) (hm : isFalsy d.message = false) :
    send_message cfg true (some d) .timeout
        = ((.errorMessage (str "Failed to send message: "
            ++ timeoutMessage cfg), 500), some (.textPayload d)) ∧
      send_message cfg true (some d) .connErr
        = ((.errorMessage (str "Failed to send message: "
            ++ connectMessage cfg), 500), some (.textPayload d)) ∧
      connectMessage cfg
        = str "Cannot connect to WhatsApp API at " ++ cfg.base_url := by
  refine ⟨?_, ?_, rfl⟩ <;>
    · simp only [send_message, send_to_whatsapp_api]
      rw [if_neg (by decide), if_neg (by rw [hp]; decide),
        if_neg (by rw [hm]; decide)]

/-- Witness for C6 at a concrete configuration and request. -/
theorem C6_witness :
    send_message ⟨str "http://IP-API:5000", 30⟩ true
        (some ⟨some (str "628123456789"), some (str "hello")⟩) .connErr
      = ((.errorMessage (str "Failed to send message: "
          ++ connectMessage ⟨str "http://IP-API:5000", 30⟩), 500),
          some (.textPayload ⟨some (str "628123456789"), some (str "hello")⟩)) :=
  (C6_amended_upstream_failure_500 ⟨str "http://IP-API:5000", 30⟩
    ⟨some (str "628123456789"), some (str "hello")⟩
    (by decide) (by decide)).2.1

/-- C7: when the forwarded call completes, send-message relays the
upstream status code and JSON body to its caller unchanged, whatever the
status code is — in particular for non-success statuses, which are not
reinterpreted. -/
theorem C7_upstream_relayed_verbatim (cfg : ApiConfig) (d : TextRequest)
    (code : Nat) (body : PyStr)
    (hp : isFalsy d.phone = false) (hm : isFalsy d.message = false) :
    send_message cfg true (some d) (.response code body)
      = ((.upstream body, code), some (.textPayload d)) := by
  simp only [send_message, send_to_whatsapp_api]
  rw [if_neg (by decide), if_neg (by rw [hp]; decide),
    if_neg (by rw [hm]; decide)]

/-- Witness for C7: a 422 upstream business error is relayed as 422 with
its body. -/
theorem C7_witness :
    send_message ⟨str "http://IP-API:5000", 30⟩ true
        (some ⟨some (str "628123456789"), some (str "hello")⟩)
        (.response 422 (str "upstream-rejected"))
      = ((.upstream (str "upstream-rejected"), 422),
          some (.textPayload ⟨some (str "628123456789"), some (str "hello")⟩)) :=
  C7_upstream_relayed_verbatim ⟨str "http://IP-API:5000", 30⟩
    ⟨some (str "628123456789"), some (str "hello")⟩ 422
    (str "upstream-rejected") (by decide) (by decide)

/-- Counterexample to C9: the phone 123 normalizes to 62123, whose digit
count 5 is outside [10, 15], yet send-message does not answer 400 — it
forwards the raw request and relays the upstream answer. -/
theorem C9_counterexample :
    format_phone_number (str "123") = none ∧
      send_message ⟨str "http://IP-API:5000", 30⟩ true
          (some ⟨some (str "123"), some (str "hi")⟩)
          (.response 200 (str "ok-body"))
        = ((.upstream (str "ok-body"), 200),
            some (.textPayload ⟨some (str "123"), some (str "hi")⟩)) := by
  constructor <;> decide

/-- C9 amended: with the backend available, send-message answers 400 when
the JSON body is absent, the phone field is missing or empty, or the
message field is missing or empty; the phone value is never validated
beyond truthiness, and a completed upstream call is relayed verbatim as
the success path. -/
theorem C9_amended_400_conditions (cfg : ApiConfig) (d : TextRequest)
    (u : UpstreamOutcome) (code : Nat) (body : PyStr) :
    send_message cfg true none u
        = ((.errorMessage (str "Invalid JSON data"), 400), none) ∧
      (isFalsy d.phone = true →
        send_message cfg true (some d) u
          = ((.errorMessage (str "Phone number required"), 400), none)) ∧
      (isFalsy d.phone = false → isFalsy d.message = true →
        send_message cfg true (some d) u
          = ((.errorMessage (str "Message text required"), 400), none)) ∧
      (isFalsy d.phone = false → isFalsy d.message = false →
        send_message cfg true (some d) (.response code body)
          = ((.upstream body, code), some (.textPayload d))) := by
  refine ⟨?_, ?_, ?_, ?_⟩
  · simp only [send_message]
    rw [if_neg (by decide)]
  · intro hp
    simp only [send_message]
    rw [if_neg (by decide), if_pos hp]
  · intro hp hm
    simp only [send_message]
    rw [if_neg (by decide), if_neg (by rw [hp]; decide), if_pos hm]
  · intro hp hm
    simp only [send_message, send_to_whatsapp_api]
    rw [if_neg (by decide), if_neg (by rw [hp]; decide),
      if_neg (by rw [hm]; decide)]

/-- Witness for C9 covering the three 400 branches and the relayed
success at concrete inputs. -/
theorem C9_witness :
    send_message ⟨str "http://IP-API:5000", 30⟩ true none .timeout
        = ((.errorMessage (str "Invalid JSON data"), 400), none) ∧
      send_message ⟨str "http://IP-API:5000", 30⟩ true
          (some ⟨none, some (str "hi")⟩) .timeout
        = ((.errorMessage (str "Phone number required"), 400), none) ∧
      send_message ⟨str "http://IP-API:5000", 30⟩ true
          (some ⟨some (str "628123456789"), none⟩) .timeout
        = ((.errorMessage (str "Message text required"), 400), none) ∧
      send_message ⟨str "http://IP-API:5000", 30⟩ true
          (some ⟨some (str "628123456789"), some (str "hi")⟩)
          (.response 200 (str "sent"))
        = ((.upstream (str "sent"), 200),
            some (.textPayload ⟨some (str "628123456789"), some (str "hi")⟩)) :=
  ⟨(C9_amended_400_conditions ⟨str "http://IP-API:5000", 30⟩
      ⟨none, some (str "hi")⟩ .timeout 200 (str "sent")).1,
   (C9_amended_400_conditions ⟨str "http://IP-API:5000", 30⟩
      ⟨none, some (str "hi")⟩ .timeout 200 (str "sent")).2.1 (by decide),
   (C9_amended_400_conditions ⟨str "http://IP-API:5000", 30⟩
      ⟨some (str "628123456789"), none⟩ .timeout 200 (str "sent")).2.2.1
     (by decide) (by decide),
   (C9_amended_400_conditions ⟨str "http://IP-API:5000", 30⟩
      ⟨some (str "628123456789"), some (str "hi")⟩ .timeout 200
      (str "sent")).2.2.2 (by decide) (by decide)⟩

/-- C10: no send endpoint invokes format_phone_number.  Whenever a handler
reaches the forwarding call, the phone it hands the upstream is the raw
client-supplied string — including strings the normalizer would reject —
with no digit stripping, no 62-prefixing and no length validation. -/
theorem C10_phone_forwarded_raw (cfg : ApiConfig) (d : TextRequest)
    (req : MediaRequest) (m : MediaClass) (u : UpstreamOutcome)
    (s : StagedMeta)
    (hp : isFalsy d.phone = false) (hm : isFalsy d.message = false)
    (hq : isFalsy req.phone = false)
    (hv : validate_file req.file m = .ok s) :
    (send_message cfg true (some d) u).2 = some (.textPayload d) ∧
      (send_media cfg true m req u).2
        = some (.mediaPayload (req.phone.getD [])
            (if req.caption.isEmpty then none else some req.caption)
            s.filename) := by
  constructor
  · simp only [send_message]
    rw [if_neg (by decide), if_neg (by rw [hp]; decide),
      if_neg (by rw [hm]; decide)]
    cases u <;> rfl
  · simp only [send_media]
    rw [if_neg (by decide), if_neg (by rw [hq]; decide), hv]
    cases u <;> rfl

/-- Witness for C10: the phone 123, rejected by format_phone_number, is
forwarded untouched by both the text and the image handler. -/
theorem C10_witness :
    (send_message ⟨str "http://IP-API:5000", 30⟩ true
        (some ⟨some (str "123"), some (str "hi")⟩)
        (.response 200 (str "sent"))).2
      = some (.textPayload ⟨some (str "123"), some (str "hi")⟩) ∧
      (send_media ⟨str "http://IP-API:5000", 30⟩ true MediaClass.images
          ⟨some (str "123"), [], some ⟨str "a.jpg", 5⟩⟩
          (.response 200 (str "sent"))).2
        = some (.mediaPayload (str "123") none (str "a.jpg")) :=
  C10_phone_forwarded_raw ⟨str "http://IP-API:5000", 30⟩
    ⟨some (str "123"), some (str "hi")⟩
    ⟨some (str "123"), [], some ⟨str "a.jpg", 5⟩⟩ MediaClass.images
    (.response 200 (str "sent")) ⟨str "a.jpg", 5⟩
    (by decide) (by decide) (by decide) (by decide)
